import Mathlib

/-!
# Nixxer tracker-detection and blocklist-management engine: a shallow embedding

This file embeds the core of the Nixxer browser extension (`src/popup.js`,
`NixxerCore` and its helpers) into Lean 4 and proves properties of the
embedded definitions.

Modelling conventions:
* JavaScript strings are Lean `String`s; a value that may be a non-string
  (`typeof x !== 'string'`) is modelled as `Option String` with `none` for
  the non-string case where the code checks for it.
* Timestamps (`Date.now()`) are `Nat`.
* A JavaScript `Map` is an insertion-ordered association list
  `List (String × α)` with unique keys; `Map.set` on an existing key updates
  in place, otherwise appends (matching JS iteration-order semantics).
* The browser's `new URL(u).hostname` is an external API; it is modelled by
  `parseUrlHostname`, a hostname extractor for hierarchical URLs
  (`scheme://host[:port]/...`), returning `none` where the constructor throws.
* The concrete regular expressions of the signature catalog are simple
  anchored/substring patterns; each is transcribed as an executable predicate.
* `try`/`catch` blocks that swallow errors are modelled by `Option`/`Except`
  and explicit fallthrough.
-/

namespace Nixxer

/-! ## String utilities (ASCII semantics of the JS string operations used) -/

/-- ASCII lowercasing of one character, as `String.prototype.toLowerCase`
acts on the ASCII range (all data in the catalog is ASCII). -/
def charLower (c : Char) : Char :=
  if 'A' ≤ c ∧ c ≤ 'Z' then Char.ofNat (c.toNat + 32) else c

/-- `s.toLowerCase()` on ASCII strings. -/
def jsToLower (s : String) : String :=
  String.mk (s.toList.map charLower)

/-- The whitespace characters `String.prototype.trim` strips (ASCII subset). -/
def jsIsSpace (c : Char) : Bool :=
  c = ' ' || c = '\t' || c = '\n' || c = '\r'

/-- `s.trim()`. -/
def jsTrim (s : String) : String :=
  String.mk (((s.toList.dropWhile jsIsSpace).reverse.dropWhile jsIsSpace).reverse)

/-- Substring occurrence on character lists (`String.prototype.includes`,
and the unanchored regex substring tests). -/
def listInfix (pat : List Char) : List Char → Bool
  | [] => pat.isEmpty
  | c :: rest => pat.isPrefixOf (c :: rest) || listInfix pat rest

/-- `s` contains `pat` as a substring. -/
def strContains (s pat : String) : Bool :=
  listInfix pat.toList s.toList

/-- `s.endsWith(suffix)`. -/
def strEndsWith (s suffix : String) : Bool :=
  suffix.toList.isSuffixOf s.toList

/-- `s.startsWith(pre)`. -/
def strStartsWith (s pre : String) : Bool :=
  pre.toList.isPrefixOf s.toList

/-- Lexicographic comparison of character lists by code point, the order
`Array.prototype.sort()` uses on (ASCII) strings with no comparator. -/
def listLe : List Char → List Char → Bool
  | [], _ => true
  | _ :: _, [] => false
  | a :: as, b :: bs =>
    if a.toNat < b.toNat then true
    else if b.toNat < a.toNat then false
    else listLe as bs

/-- Default JS string ordering (code-unit lexicographic; all exported keys are
ASCII). -/
def strLe (a b : String) : Bool := listLe a.toList b.toList

/-- Split a character list on a separator character (used for the
`GA1.d.d.d` value patterns). -/
def splitOnChar (sep : Char) : List Char → List (List Char)
  | [] => [[]]
  | c :: rest =>
    let r := splitOnChar sep rest
    if c = sep then [] :: r
    else
      match r with
      | [] => [[c]]
      | h :: t => (c :: h) :: t

/-- A nonempty all-digit character list (regex `\d+`). -/
def allDigits1 (cs : List Char) : Bool :=
  !cs.isEmpty && cs.all (fun c => '0' ≤ c && c ≤ '9')

/-! ## Signature catalog (from `src/popup.js`, the pattern constants)

Each regex literal of the source is transcribed as an executable predicate:
`/^x$/` is equality, `/^x/` is `startsWith`, an unanchored pattern is a
substring test, and `(\?|$)` is "followed by a question mark or the end". -/

/-- `GA_COOKIE_PATTERNS`: `/^_ga$/, /^_gid$/, /^_gat/, /^_gtag_/, /^__utm[abcz]$/`. -/
def gaCookieName (n : String) : Bool :=
  n == "_ga" || n == "_gid" || strStartsWith n "_gat" || strStartsWith n "_gtag_" ||
  n == "__utma" || n == "__utmb" || n == "__utmc" || n == "__utmz"

/-- `GTM_COOKIE_PATTERNS`: `/^_gcl_/, /^_gac_/, /^_dc_gtm_/, /^_fbc$/, /^_fbp$/`. -/
def gtmCookieName (n : String) : Bool :=
  strStartsWith n "_gcl_" || strStartsWith n "_gac_" || strStartsWith n "_dc_gtm_" ||
  n == "_fbc" || n == "_fbp"

/-- `GA_VALUE_PATTERNS`: `/^GA1\.\d+\.\d+\.\d+$/, /^GA1\.\d+\.\d+$/`. -/
def gaValueMatch (v : String) : Bool :=
  match splitOnChar '.' v.toList with
  | [g, a, b] => g == "GA1".toList && allDigits1 a && allDigits1 b
  | [g, a, b, c] => g == "GA1".toList && allDigits1 a && allDigits1 b && allDigits1 c
  | _ => false

/-- `FACEBOOK_COOKIE_PATTERNS`: `/^_fbc$/, /^_fbp$/, /^fr$/, /^datr$/, /^sb$/, /^wd$/`. -/
def facebookCookieName (n : String) : Bool :=
  n == "_fbc" || n == "_fbp" || n == "fr" || n == "datr" || n == "sb" || n == "wd"

/-- `ADOBE_COOKIE_PATTERNS`: `/^s_cc$/, /^s_sq$/, /^s_vi$/, /^s_fid$/, /^AMCV_/, /^mbox/`. -/
def adobeCookieName (n : String) : Bool :=
  n == "s_cc" || n == "s_sq" || n == "s_vi" || n == "s_fid" ||
  strStartsWith n "AMCV_" || strStartsWith n "mbox"

/-- `SESSION_RECORDING_COOKIE_PATTERNS`. -/
def sessionRecordingCookieName (n : String) : Bool :=
  n == "_hjid" || strStartsWith n "_hjSession" || strStartsWith n "_hjIncludedInSample" ||
  n == "fs_uid" || strStartsWith n "FS." || strStartsWith n "_lr_" || strStartsWith n "_hotjar"

/-- `TIKTOK_COOKIE_PATTERNS`. -/
def tiktokCookieName (n : String) : Bool :=
  n == "_ttp" || n == "_tt_enable_cookie" || n == "tt_pixel_session_index" ||
  n == "tt_sessionId"

/-- `GA_REQUEST_PATTERNS`. -/
def gaRequestMatch (url : String) : Bool :=
  (strContains url "/collect?" || strEndsWith url "/collect") ||
  (strContains url "/g/collect?" || strEndsWith url "/g/collect") ||
  (strContains url "/mp/collect?" || strEndsWith url "/mp/collect") ||
  (strContains url "/gtm.js?" || strEndsWith url "/gtm.js") ||
  (strContains url "/gtag/js?" || strEndsWith url "/gtag/js") ||
  strContains url "google-analytics.com" ||
  strContains url "googletagmanager.com"

/-- `FACEBOOK_REQUEST_PATTERNS`. -/
def facebookRequestMatch (url : String) : Bool :=
  strContains url "facebook.com/tr" || strContains url "connect.facebook.net" ||
  strContains url ".facebook.com/plugins" || strContains url "fbevents.js"

/-- `ADOBE_REQUEST_PATTERNS`. -/
def adobeRequestMatch (url : String) : Bool :=
  strContains url "2o7.net" || strContains url "omtrdc.net" ||
  strContains url "demdex.net" || strContains url "everesttech.net"

/-- `SESSION_RECORDING_REQUEST_PATTERNS`. -/
def sessionRecordingRequestMatch (url : String) : Bool :=
  strContains url "hotjar.com" || strContains url "fullstory.com" ||
  strContains url "logrocket.com" || strContains url "mouseflow.com" ||
  strContains url "smartlook.com"

/-- `TIKTOK_REQUEST_PATTERNS`. -/
def tiktokRequestMatch (url : String) : Bool :=
  strContains url "analytics.tiktok.com" || strContains url "business-api.tiktok.com" ||
  strContains url ".tiktok.com/pixel"

/-- `KNOWN_TRACKING_DOMAINS` (the `Set` literal, in source order). -/
def KNOWN_TRACKING_DOMAINS : List String :=
  ["google-analytics.com", "googletagmanager.com", "www.google-analytics.com",
   "www.googletagmanager.com", "facebook.com", "connect.facebook.net",
   "www.facebook.com", "2o7.net", "omtrdc.net", "demdex.net", "everesttech.net",
   "hotjar.com", "fullstory.com", "logrocket.com", "mouseflow.com", "smartlook.com",
   "analytics.tiktok.com", "business-api.tiktok.com", "stats.wp.com",
   "scorecardresearch.com", "quantserve.com", "doubleclick.net",
   "googlesyndication.com", "analytics.twitter.com", "platform.twitter.com"]

/-- `TRACKING_DOMAIN_SUFFIXES` (the `Set` literal, in source order). -/
def TRACKING_DOMAIN_SUFFIXES : List String :=
  ["google-analytics.com", "googletagmanager.com", "facebook.net",
   "hotjar.com", "fullstory.com", "doubleclick.net"]

/-- `THIRD_PARTY_TRACKING_DOMAINS`, the array literal local to
`determineBlockingTarget` (in source order). -/
def THIRD_PARTY_TRACKING_DOMAINS : List String :=
  ["google-analytics.com", "googletagmanager.com", "www.google-analytics.com",
   "www.googletagmanager.com", "facebook.com", "connect.facebook.net",
   "www.facebook.com", "2o7.net", "omtrdc.net", "demdex.net", "everesttech.net",
   "hotjar.com", "fullstory.com", "logrocket.com", "mouseflow.com", "smartlook.com",
   "analytics.tiktok.com", "business-api.tiktok.com", "stats.wp.com",
   "scorecardresearch.com", "quantserve.com", "doubleclick.net",
   "googlesyndication.com", "analytics.twitter.com", "platform.twitter.com"]

/-! ## Data model -/

/-- The detection record stored per registry key (the object literals built in
`updateDetectedDomain` and `handleZombieCookieDetection`).  Ordinary records
carry a `hostDomain` and no zombie flag; zombie records carry
`isZombieCookie = true` and no `hostDomain`; the absent JS fields are
modelled as `none` / `false`. -/
structure DetectionRecord where
  firstSeen : Nat
  lastSeen : Nat
  frequency : Nat
  gaTypes : List String
  blocked : Bool
  details : List String
  hostDomain : Option String
  isZombieCookie : Bool
deriving Repr, DecidableEq

/-- `this.detectedDomains`: a JS `Map` from domain key to record, modelled as
an insertion-ordered association list with unique keys. -/
abbrev Registry := List (String × DetectionRecord)

/-- `this.settings` (defaults in the `NixxerCore` constructor).  The two
numeric settings are integers (`parseInt` results). -/
structure Settings where
  maxHostsEntries : Int
  autoExportThreshold : Int
  detectionSensitivity : String
  exportFormat : String
  blockSelfHosted : Bool
  debugLogging : Bool
  autoCleanup : Bool
deriving Repr, DecidableEq

/-- Constructor defaults of `NixxerCore`. -/
def defaultSettings : Settings :=
  { maxHostsEntries := 500
    autoExportThreshold := 450
    detectionSensitivity := "high"
    exportFormat := "pihole"
    blockSelfHosted := true
    debugLogging := false
    autoCleanup := true }

/-- The object returned by `determineBlockingTarget`. -/
structure BlockingInfo where
  shouldBlock : Bool
  addToBlocklist : Bool
  targetDomain : String
  blockingMethod : String
deriving Repr, DecidableEq

/-! ## Registry primitives (JS `Map` semantics) -/

/-- `map.get(k)` (preceded by `map.has(k)` in the source): first entry with
the key. -/
def regFind (reg : Registry) (k : String) : Option DetectionRecord :=
  (List.find? (fun e => e.1 == k) reg).map (·.2)

/-- `map.set(k, v)`: update in place if the key is present, else append. -/
def regSet (reg : Registry) (k : String) (v : DetectionRecord) : Registry :=
  if List.any reg (fun e => e.1 == k) then
    List.map (fun e => if e.1 == k then (k, v) else e) reg
  else reg ++ [(k, v)]

/-- Keys of the registry, in order. -/
def regKeys (reg : Registry) : List String :=
  List.map Prod.fst reg

/-- Entry count (`map.size`). -/
def regSize (reg : Registry) : Nat :=
  List.length reg

/-! ## Validation utilities -/

/-- `validateDomain`: throws on an empty or over-long string, otherwise
returns `domain.toLowerCase().trim()`.  `none` models the throw. -/
def validateDomain (domain : String) : Option String :=
  if domain.length = 0 then none
  else if domain.length > 253 then none
  else some (jsTrim (jsToLower domain))

/-- The partial settings object carried by a `SETTINGS_UPDATED` message or a
storage load; absent fields are `none`.  Numeric fields are modelled as the
integers `parseInt` produces on numeric input. -/
structure SettingsUpdate where
  maxHostsEntries : Option Int := none
  autoExportThreshold : Option Int := none
  detectionSensitivity : Option String := none
  exportFormat : Option String := none
  blockSelfHosted : Option Bool := none
  debugLogging : Option Bool := none
  autoCleanup : Option Bool := none
deriving Repr, DecidableEq

/-- `validateSettings`: checks `maxHostsEntries ∈ [50, 10000]` and
`autoExportThreshold ≥ 10`, each only when the field is present; the first
failing check throws (modelled by `Except.error` with the thrown message). -/
def validateSettings (s : SettingsUpdate) : Except String SettingsUpdate :=
  if (match s.maxHostsEntries with
      | some m => decide (m < 50) || decide (m > 10000)
      | none => false) then
    Except.error "maxHostsEntries must be between 50 and 10000"
  else if (match s.autoExportThreshold with
      | some t => decide (t < 10)
      | none => false) then
    Except.error "autoExportThreshold must be at least 10"
  else Except.ok s

/-- `Object.assign(this.settings, validatedSettings)`: fields present in the
update overwrite the current settings. -/
def mergeSettings (current : Settings) (u : SettingsUpdate) : Settings :=
  { maxHostsEntries := u.maxHostsEntries.getD current.maxHostsEntries
    autoExportThreshold := u.autoExportThreshold.getD current.autoExportThreshold
    detectionSensitivity := u.detectionSensitivity.getD current.detectionSensitivity
    exportFormat := u.exportFormat.getD current.exportFormat
    blockSelfHosted := u.blockSelfHosted.getD current.blockSelfHosted
    debugLogging := u.debugLogging.getD current.debugLogging
    autoCleanup := u.autoCleanup.getD current.autoCleanup }

/-- The `SETTINGS_UPDATED` branch of `handleMessage`: on validation success the
update is merged into the live settings and a success response is sent; on a
validation throw the settings are left untouched and an error response
`"Invalid settings: " + message` is sent.  Returns the new settings and the
error text of the response, if any. -/
def handleSettingsUpdated (current : Settings) (msg : SettingsUpdate) :
    Settings × Option String :=
  match validateSettings msg with
  | Except.ok v => (mergeSettings current v, none)
  | Except.error e => (current, some ("Invalid settings: " ++ e))

/-! ## Classifier -/

/-- `NixxerCore.isTrackingCookie(name, value)`.  A non-string `name` (the
`typeof name !== 'string'` guard) is `none`; `value` is `none` when the cookie
has no string value, and the JS truthiness test `value && ...` also rejects
the empty string. -/
def isTrackingCookie (name : Option String) (value : Option String) : Bool :=
  match name with
  | none => false
  | some n =>
    let isGAName := gaCookieName n
    let isGTMName := gtmCookieName n
    let isFacebookName := facebookCookieName n
    let isAdobeName := adobeCookieName n
    let isSessionRecordingName := sessionRecordingCookieName n
    let isTikTokName := tiktokCookieName n
    if isGAName || isGTMName || isFacebookName || isAdobeName ||
        isSessionRecordingName || isTikTokName then
      match value with
      | some v => if (!(v == "")) && gaValueMatch v then true else true
      | none => true
    else false

/-- The disjunction of the six cookie-name family matches that gates
`isTrackingCookie` in the source. -/
def matchesAnyCookieFamily (n : String) : Bool :=
  gaCookieName n || gtmCookieName n || facebookCookieName n || adobeCookieName n ||
  sessionRecordingCookieName n || tiktokCookieName n

/-- The cleaned hostname `hostname.toLowerCase().trim()` computed by
`isKnownTrackingDomain`. -/
def cleanHostname (hostname : String) : String :=
  jsTrim (jsToLower hostname)

/-- `NixxerCore.isKnownTrackingDomain(hostname)`: exact membership in
`KNOWN_TRACKING_DOMAINS`, then a plain-suffix scan of
`TRACKING_DOMAIN_SUFFIXES`, then a dot-separated-suffix scan of
`KNOWN_TRACKING_DOMAINS`. -/
def isKnownTrackingDomain (hostname : String) : Bool :=
  let clean := cleanHostname hostname
  if List.contains KNOWN_TRACKING_DOMAINS clean then true
  else if List.any TRACKING_DOMAIN_SUFFIXES (fun suffix => strEndsWith clean suffix) then
    true
  else if List.any KNOWN_TRACKING_DOMAINS (fun domain => strEndsWith clean ("." ++ domain)) then
    true
  else false

/-- `NixxerCore.isTrackingRequest(url)`. -/
def isTrackingRequest (url : String) : Bool :=
  gaRequestMatch url || facebookRequestMatch url || adobeRequestMatch url ||
  sessionRecordingRequestMatch url || tiktokRequestMatch url

/-- `NixxerCore.isSelfHostedGA(details, method)`: only `request` detections
with a string detail are tested against the seven self-hosting URL
signatures. -/
def isSelfHostedGA (details : String) (method : String) : Bool :=
  if !(method == "request") then false
  else
    strContains details "/gtag/js" || strContains details "/gtm.js" ||
    strContains details "/analytics.js" || strContains details "/ga.js" ||
    strContains details "/collect?" || strContains details "/g/collect?" ||
    strContains details "/mp/collect?"

/-! ## URL parsing (external browser API)

`new URL(u).hostname` of the host environment, modelled for hierarchical URLs:
the text after `://`, up to the first `/`, `?`, `#` or `:` (port), lowercased;
`none` models the constructor throwing (no `://`, or an empty host). -/

/-- Drop everything through the first `://`. -/
def afterSchemeSep : List Char → Option (List Char)
  | ':' :: '/' :: '/' :: rest => some rest
  | _ :: rest => afterSchemeSep rest
  | [] => none

/-- Model of `new URL(url).hostname` (see section comment). -/
def parseUrlHostname (url : String) : Option String :=
  match afterSchemeSep url.toList with
  | none => none
  | some rest =>
    let host := rest.takeWhile (fun c => !(c = '/' || c = '?' || c = '#' || c = ':'))
    if host.isEmpty then none else some (String.mk (host.map charLower))

/-! ## Blocking-target resolution -/

/-- `NixxerCore.determineBlockingTarget(domain, method, details)`:
* the tracking domain is the parsed URL hostname for `request` detections
  (falling back to `domain` when the `URL` constructor throws);
* a third-party catalog hit (exact or dot-suffix) blocks at network level and
  registers for export;
* otherwise a self-hosted signature with `blockSelfHosted` blocks browser-only;
* otherwise `low` sensitivity allows;
* otherwise block browser-only. -/
def determineBlockingTarget (domain method details : String) (settings : Settings) :
    BlockingInfo :=
  let trackingDomain :=
    if method == "request" then
      match parseUrlHostname details with
      | some h => h
      | none => domain
    else domain
  let isThirdPartyTracker := List.any THIRD_PARTY_TRACKING_DOMAINS (fun tracker =>
    trackingDomain == tracker || strEndsWith trackingDomain ("." ++ tracker))
  if isThirdPartyTracker then
    { shouldBlock := true, addToBlocklist := true, targetDomain := trackingDomain,
      blockingMethod := "network_level" }
  else if isSelfHostedGA details method && settings.blockSelfHosted then
    { shouldBlock := true, addToBlocklist := false, targetDomain := domain,
      blockingMethod := "browser_only" }
  else if settings.detectionSensitivity == "low" then
    { shouldBlock := false, addToBlocklist := false, targetDomain := domain,
      blockingMethod := "none" }
  else
    { shouldBlock := true, addToBlocklist := false, targetDomain := domain,
      blockingMethod := "browser_only" }

/-! ## Domain registry operations -/

/-- `NixxerCore.updateDetectedDomain(domainKey, method, details, hostDomain,
timestamp)`. -/
def updateDetectedDomain (reg : Registry) (domainKey method details hostDomain : String)
    (timestamp : Nat) : Registry :=
  match regFind reg domainKey with
  | none =>
    regSet reg domainKey
      { firstSeen := timestamp, lastSeen := timestamp, frequency := 1,
        gaTypes := [method], blocked := true, details := [details],
        hostDomain := some hostDomain, isZombieCookie := false }
  | some existing =>
    regSet reg domainKey
      { existing with
        lastSeen := timestamp
        frequency := existing.frequency + 1
        gaTypes :=
          if List.contains existing.gaTypes method then existing.gaTypes
          else existing.gaTypes ++ [method]
        details :=
          if existing.details.length < 5 then existing.details ++ [details]
          else existing.details }

/-- `NixxerCore.handleZombieCookieDetection(domain, method, details)`: the
domain is validated (a throw is caught, leaving the registry untouched), the
record lives under the key `cleanDomain + "_zombie"`, and a repeat detection
updates `lastSeen`, `frequency` and the method list only — the source pushes
no further `details`. -/
def handleZombieCookieDetection (reg : Registry) (domain method details : String)
    (now : Nat) : Registry :=
  match validateDomain domain with
  | none => reg
  | some cleanDomain =>
    let zombieKey := cleanDomain ++ "_zombie"
    match regFind reg zombieKey with
    | none =>
      regSet reg zombieKey
        { firstSeen := now, lastSeen := now, frequency := 1, gaTypes := [method],
          blocked := true, details := [details], hostDomain := none,
          isZombieCookie := true }
    | some existing =>
      regSet reg zombieKey
        { existing with
          lastSeen := now
          frequency := existing.frequency + 1
          gaTypes :=
            if List.contains existing.gaTypes method then existing.gaTypes
            else existing.gaTypes ++ [method] }

/-- The comparator `(a, b) => a[1].lastSeen - b[1].lastSeen` passed to the
eviction sort: ascending by `lastSeen`. -/
def lastSeenLe (a b : String × DetectionRecord) : Prop :=
  a.2.lastSeen ≤ b.2.lastSeen

instance : DecidableRel lastSeenLe := fun a b => Nat.decLe a.2.lastSeen b.2.lastSeen

instance : IsTotal (String × DetectionRecord) lastSeenLe :=
  ⟨fun a b => Nat.le_total a.2.lastSeen b.2.lastSeen⟩

instance : IsTrans (String × DetectionRecord) lastSeenLe :=
  ⟨fun _ _ _ hab hbc => Nat.le_trans hab hbc⟩

/-- `NixxerCore.manageBlocklist()` (capacity eviction; the trailing
`suggestExport` call is pure messaging and does not touch the registry): when
`autoCleanup` is on and the entry count exceeds `maxHostsEntries`, the entries
are sorted ascending by `lastSeen` (JS `Array.prototype.sort` is stable) and
the first `size - maxHostsEntries` of the sorted order are deleted from the
map, the surviving entries keeping their insertion order.  A stable insertion
sort realizes the JS stable sort. -/
def manageBlocklist (settings : Settings) (reg : Registry) : Registry :=
  if !settings.autoCleanup then reg
  else if (reg.length : Int) > settings.maxHostsEntries then
    let sorted := List.insertionSort lastSeenLe reg
    let toRemove := sorted.take (reg.length - settings.maxHostsEntries.toNat)
    let removedKeys := List.map Prod.fst toRemove
    reg.filter (fun e => !(List.contains removedKeys e.1))
  else reg

/-- The keys `manageBlocklist` deletes: the first `size - maxHostsEntries`
keys of the ascending-by-`lastSeen` ordering. -/
def evictedKeys (settings : Settings) (reg : Registry) : List String :=
  List.map Prod.fst ((List.insertionSort lastSeenLe reg).take
    (reg.length - settings.maxHostsEntries.toNat))

/-! ## Export serialization -/

/-- The domain list embedded in every export format:
`Array.from(this.detectedDomains.keys()).filter(string, nonempty).sort()`. -/
def exportDomains (reg : Registry) : List String :=
  List.insertionSort (fun a b => strLe a b = true)
    ((regKeys reg).filter (fun d => decide (0 < d.length)))

/-- The `pihole` branch of `exportBlocklist`: header lines, then the domain
keys joined by newlines.  The timestamp and the formatted
average-processing-time figure are opaque inputs produced by the host
environment. -/
def piholeContent (reg : Registry) (timestamp perf : String) : String :=
  "# Nixxer Generated Blocklist (Enhanced)\n# Generated: " ++ timestamp ++
  "\n# Total domains: " ++ toString (exportDomains reg).length ++
  "\n# Multi-platform tracking protection\n# Extension performance: " ++ perf ++
  "ms avg\n\n" ++ String.intercalate "\n" (exportDomains reg)

/-- The `hosts` branch: one `0.0.0.0 domain` line per key. -/
def hostsContent (reg : Registry) (timestamp perf : String) : String :=
  "# Nixxer Generated Hosts File (Enhanced)\n# Generated: " ++ timestamp ++
  "\n# Total domains: " ++ toString (exportDomains reg).length ++
  "\n# Multi-platform tracking protection\n# Extension performance: " ++ perf ++
  "ms avg\n\n" ++
  String.intercalate "\n" ((exportDomains reg).map (fun d => "0.0.0.0 " ++ d))

/-- The `adguard` branch: one `||domain^` rule per key. -/
def adguardContent (reg : Registry) (timestamp perf : String) : String :=
  "! Title: Nixxer Multi-Platform Tracking Rules (Enhanced)\n! Generated: " ++
  timestamp ++ "\n! Total domains: " ++ toString (exportDomains reg).length ++
  "\n! Extension version: 1.2.0\n! Performance: " ++ perf ++ "ms avg\n\n" ++
  String.intercalate "\n" ((exportDomains reg).map (fun d => "||" ++ d ++ "^"))

/-! ## Detection pipeline -/

/-- The mutable fields of `NixxerCore` touched by the request path. -/
structure CoreState where
  isEnabled : Bool
  blockedToday : Nat
  detectedDomains : Registry
  recentRequests : List (String × Nat)
  settings : Settings
deriving Repr, DecidableEq

/-- `this.recentRequests.get(url)` (guarded by `has`). -/
def recentLookup (l : List (String × Nat)) (url : String) : Option Nat :=
  (List.find? (fun e => e.1 == url) l).map (·.2)

/-- `this.recentRequests.set(url, now)`. -/
def recentSet (l : List (String × Nat)) (url : String) (now : Nat) :
    List (String × Nat) :=
  if List.any l (fun e => e.1 == url) then
    List.map (fun e => if e.1 == url then (url, now) else e) l
  else l ++ [(url, now)]

/-- `NixxerCore.handleTrackerDetection(domain, method, details)`: validates the
domain (a throw is caught and leaves the state untouched), resolves the
blocking target, registers the detection iff `addToBlocklist` (stripping one
leading dot from the target domain), and runs `manageBlocklist` when the
registry has reached `autoExportThreshold`. -/
def handleTrackerDetection (st : CoreState) (domain method details : String)
    (now : Nat) : CoreState :=
  match validateDomain domain with
  | none => st
  | some cleanDomain =>
    let blockingInfo := determineBlockingTarget cleanDomain method details st.settings
    if !blockingInfo.shouldBlock then st
    else
      let reg1 :=
        if blockingInfo.addToBlocklist then
          let domainKey :=
            if strStartsWith blockingInfo.targetDomain "." then
              String.mk blockingInfo.targetDomain.toList.tail
            else blockingInfo.targetDomain
          updateDetectedDomain st.detectedDomains domainKey method details cleanDomain now
        else st.detectedDomains
      let reg2 :=
        if (reg1.length : Int) ≥ st.settings.autoExportThreshold then
          manageBlocklist st.settings reg1
        else reg1
      { st with detectedDomains := reg2 }

/-- The `webRequest.onBeforeRequest` listener body.  Returns the successor
state and whether the request is cancelled (`{cancel: true}` versus `{}`).
The duplicate-URL window check runs before anything else; only past it is the
URL recorded in `recentRequests` and classified (an unparseable URL is the
caught `new URL` throw: the request is allowed). -/
def onBeforeRequest (st : CoreState) (url : String) (now : Nat) :
    CoreState × Bool :=
  if !st.isEnabled then (st, false)
  else if (match recentLookup st.recentRequests url with
           | some lastSeen => decide (now - lastSeen < 1000)
           | none => false) then (st, false)
  else
    let st1 := { st with recentRequests := recentSet st.recentRequests url now }
    match parseUrlHostname url with
    | none => (st1, false)
    | some hostname =>
      if !isKnownTrackingDomain hostname && !isTrackingRequest url then (st1, false)
      else
        let blockingInfo := determineBlockingTarget hostname "request" url st1.settings
        if blockingInfo.shouldBlock then
          let st2 := handleTrackerDetection st1 hostname "request" url now
          ({ st2 with blockedToday := st2.blockedToday + 1 }, true)
        else (st1, false)

/-! ## Specification-side definitions

These transcribe the wording of the specification (not the source) and exist
only to be compared against the source-derived definitions above. -/

/-- Transcription of the spec's Resolver algorithm (§4.3, steps 1–5, as
repeated by the claim): (1) authoritative domain from the parsed request URL,
else the hint; (2) known third-party tracker ⇒ network-level, register for
export; (3) `request` method with a self-hosting signature and
`blockSelfHosted` ⇒ browser-only, not registered; (4) `low` sensitivity ⇒
allow; (5) default ⇒ browser-only, not registered. -/
def resolveSpec (domain method details : String) (settings : Settings) :
    BlockingInfo :=
  let trackingDomain :=
    if method == "request" then (parseUrlHostname details).getD domain else domain
  if List.any THIRD_PARTY_TRACKING_DOMAINS (fun tracker =>
      trackingDomain == tracker || strEndsWith trackingDomain ("." ++ tracker)) then
    { shouldBlock := true, addToBlocklist := true, targetDomain := trackingDomain,
      blockingMethod := "network_level" }
  else if (method == "request" &&
      (strContains details "/gtag/js" || strContains details "/gtm.js" ||
       strContains details "/analytics.js" || strContains details "/ga.js" ||
       strContains details "/collect?" || strContains details "/g/collect?" ||
       strContains details "/mp/collect?")) && settings.blockSelfHosted then
    { shouldBlock := true, addToBlocklist := false, targetDomain := domain,
      blockingMethod := "browser_only" }
  else if settings.detectionSensitivity == "low" then
    { shouldBlock := false, addToBlocklist := false, targetDomain := domain,
      blockingMethod := "none" }
  else
    { shouldBlock := true, addToBlocklist := false, targetDomain := domain,
      blockingMethod := "browser_only" }

/-- Transcription of the claim's description of `isKnownTrackingDomain`: the
cleaned hostname is exactly a domain of the known tracking domain data
(`KNOWN_TRACKING_DOMAINS` together with `TRACKING_DOMAIN_SUFFIXES`), or ends
with `"." ++ domain` for such a domain — and nothing else. -/
def exactOrDotSuffixMatch (hostname : String) : Bool :=
  let clean := cleanHostname hostname
  List.any (KNOWN_TRACKING_DOMAINS ++ TRACKING_DOMAIN_SUFFIXES) (fun d =>
    clean == d || strEndsWith clean ("." ++ d))

/-! ## Concrete instances used by the verification below -/

/-- A detection record whose timestamps are both `t` (as `recordDetection`
creates on first sight). -/
def sampleRecord (t : Nat) : DetectionRecord :=
  { firstSeen := t, lastSeen := t, frequency := 1, gaTypes := ["request"],
    blocked := true, details := ["https://site.example/collect?v=1"],
    hostDomain := some "site.example", isZombieCookie := false }

/-- Three-entry registry with `lastSeen` values 100, 200, 300 (the spec's
eviction tie-break scenario). -/
def regABC : Registry :=
  [("a.example", sampleRecord 100), ("b.example", sampleRecord 200),
   ("c.example", sampleRecord 300)]

/-- Settings with `maxHostsEntries = 2`. -/
def settingsMax2 : Settings := { defaultSettings with maxHostsEntries := 2 }

/-- A Google Analytics collect request URL. -/
def gaCollectUrl : String := "https://www.google-analytics.com/collect?x=1"

/-- Core state that has just seen `gaCollectUrl` at time 500. -/
def c10State : CoreState :=
  { isEnabled := true, blockedToday := 0, detectedDomains := [],
    recentRequests := [(gaCollectUrl, 500)], settings := defaultSettings }

/-- Registry after one zombie-cookie detection on `example.com`. -/
def zombieReg : Registry :=
  handleZombieCookieDetection [] "example.com" "zombie-storage"
    "localStorage backup: _ga" 1000

/-- `zombieReg` after a second, different zombie detection of the same
domain. -/
def zombieReg2 : Registry :=
  handleZombieCookieDetection zombieReg "example.com" "canvas-fingerprint"
    "canvas hash" 2000

/-- A settings update whose `autoExportThreshold` is not below its
`maxHostsEntries`. -/
def updThresholdAboveMax : SettingsUpdate :=
  { maxHostsEntries := some 100, autoExportThreshold := some 5000 }

/-- A settings update carrying an undeclared sensitivity value. -/
def updBogusSensitivity : SettingsUpdate :=
  { detectionSensitivity := some "invalid-sensitivity" }

/-- A settings update with an out-of-range threshold. -/
def updLowThreshold : SettingsUpdate := { autoExportThreshold := some 5 }

end Nixxer

namespace Nixxer

/-! ## Helper lemmas -/

/-- Collapse the guard chain of `isKnownTrackingDomain` into a disjunction. -/
theorem ifChain3 (a b c : Bool) :
    (if a then true else if b then true else if c then true else false) =
      (a || b || c) := by
  cases a <;> cases b <;> cases c <;> simp

/-- `Map.get` after `Map.set` of the same key. -/
theorem regFind_regSet_self (reg : Registry) (k : String) (v : DetectionRecord) :
    regFind (regSet reg k v) k = some v := by
  unfold regSet
  cases hA : List.any reg (fun e => e.1 == k) with
  | true =>
    rw [if_pos rfl]
    unfold regFind
    have hpred : ((fun (x : String × DetectionRecord) => x.1 == k) ∘
        (fun e => if e.1 == k then (k, v) else e)) =
        (fun (e : String × DetectionRecord) => e.1 == k) := by
      funext e
      show ((if e.1 == k then (k, v) else e).1 == k) = (e.1 == k)
      cases he : (e.1 == k) with
      | true => simp
      | false => simpa using he
    rw [List.find?_map, hpred]
    obtain ⟨e₀, he₀⟩ : ∃ a,
        List.find? (fun (e : String × DetectionRecord) => e.1 == k) reg = some a := by
      rw [← Option.isSome_iff_exists, List.find?_isSome]
      exact List.any_eq_true.mp hA
    have hk := List.find?_some he₀
    rw [he₀]
    simp [beq_iff_eq.mp hk]
  | false =>
    rw [if_neg Bool.false_ne_true]
    unfold regFind
    rw [List.find?_append]
    have hnone : List.find? (fun (e : String × DetectionRecord) => e.1 == k) reg = none := by
      rw [List.find?_eq_none]
      intro x hx
      exact fun hcl => (ne_true_of_eq_false hA) (List.any_eq_true.mpr ⟨x, hx, hcl⟩)
    rw [hnone, Option.none_or,
      List.find?_cons_of_pos (p := fun (e : String × DetectionRecord) => e.1 == k) _
        (beq_self_eq_true k)]
    rfl

/-- Membership gives a positive `List.contains` answer on string lists. -/
theorem containsOfKeyMem {a : String} {l : List String} (h : a ∈ l) :
    List.contains l a = true := by simpa using h

/-- Positive `List.contains` answers give membership on string lists. -/
theorem keyMemOfContains {a : String} {l : List String} (h : List.contains l a = true) :
    a ∈ l := by simpa using h

/-- The two third-party catalogs of the source (`KNOWN_TRACKING_DOMAINS` and
the list local to `determineBlockingTarget`) hold the same domains in the
same order. -/
theorem knownEqThird : KNOWN_TRACKING_DOMAINS = THIRD_PARTY_TRACKING_DOMAINS := rfl

/-! ## Claim theorems -/

/-- Claim C1 (code bug): the claim states that every domain key in any export
output is an export-eligible third-party tracker key and that zombie-record
keys never appear in exports, which is also the README's documented Safe
Export Policy; the code violates it.  After a single zombie-cookie detection
on `example.com`, the key `example.com_zombie` is the whole export domain list
and appears verbatim in the pihole, hosts and adguard payloads, although it is
not a known tracking domain and the resolver would never register it for
export. -/
theorem nixxer_C1_bug :
    exportDomains zombieReg = ["example.com_zombie"] ∧
    strContains (piholeContent zombieReg "TS" "0.00") "example.com_zombie" = true ∧
    strContains (hostsContent zombieReg "TS" "0.00") "0.0.0.0 example.com_zombie" = true ∧
    strContains (adguardContent zombieReg "TS" "0.00") "||example.com_zombie^" = true ∧
    isKnownTrackingDomain "example.com_zombie" = false ∧
    (determineBlockingTarget "example.com" "zombie-storage" "localStorage backup: _ga"
        defaultSettings).addToBlocklist = false := by
  decide

/-- Claim C2: every member of the known-tracking-domain set, and every
subdomain of a member, is classified as a known tracking domain, and a
request detection whose URL hostname is such a domain resolves to a decision
that registers the domain for export (`addToBlocklist = true`). -/
theorem nixxer_C2 (hint d m details : String) (s : Settings)
    (hm : m ∈ KNOWN_TRACKING_DOMAINS)
    (hclean : cleanHostname d = d)
    (hd : d = m ∨ strEndsWith d ("." ++ m) = true)
    (hurl : parseUrlHostname details = some d) :
    isKnownTrackingDomain d = true ∧
    (determineBlockingTarget hint "request" details s).addToBlocklist = true := by
  have hthird : List.any THIRD_PARTY_TRACKING_DOMAINS
      (fun tracker => d == tracker || strEndsWith d ("." ++ tracker)) = true := by
    refine List.any_eq_true.mpr ⟨m, knownEqThird ▸ hm, ?_⟩
    rcases hd with rfl | hsuf
    · simp
    · simp [hsuf]
  constructor
  · have hstep : isKnownTrackingDomain d =
        (List.contains KNOWN_TRACKING_DOMAINS (cleanHostname d) ||
         List.any TRACKING_DOMAIN_SUFFIXES (fun s₂ => strEndsWith (cleanHostname d) s₂) ||
         List.any KNOWN_TRACKING_DOMAINS
           (fun dom => strEndsWith (cleanHostname d) ("." ++ dom))) := by
      simp only [isKnownTrackingDomain]
      exact ifChain3 _ _ _
    rw [hstep, hclean]
    simp only [Bool.or_eq_true]
    rcases hd with rfl | hsuf
    · exact Or.inl (Or.inl (by simpa using hm))
    · exact Or.inr (List.any_eq_true.mpr ⟨m, hm, hsuf⟩)
  · simp only [determineBlockingTarget]
    simp [hurl, hthird]

/-- Witness for C2 at the subdomain `sub.hotjar.com` of the catalog member
`hotjar.com`. -/
theorem nixxer_C2_witness :
    "hotjar.com" ∈ KNOWN_TRACKING_DOMAINS ∧
    cleanHostname "sub.hotjar.com" = "sub.hotjar.com" ∧
    strEndsWith "sub.hotjar.com" ".hotjar.com" = true ∧
    parseUrlHostname "https://sub.hotjar.com/x.js" = some "sub.hotjar.com" ∧
    isKnownTrackingDomain "sub.hotjar.com" = true ∧
    (determineBlockingTarget "sub.hotjar.com" "request" "https://sub.hotjar.com/x.js"
        defaultSettings).addToBlocklist = true := by
  refine ⟨by decide, by decide, by decide, by decide, ?_, ?_⟩
  · exact (nixxer_C2 "sub.hotjar.com" "sub.hotjar.com" "hotjar.com"
      "https://sub.hotjar.com/x.js" defaultSettings (by decide) (by decide)
      (Or.inr (by decide)) (by decide)).1
  · exact (nixxer_C2 "sub.hotjar.com" "sub.hotjar.com" "hotjar.com"
      "https://sub.hotjar.com/x.js" defaultSettings (by decide) (by decide)
      (Or.inr (by decide)) (by decide)).2

/-- Claim C3 counterexample: the claim says `isKnownTrackingDomain` accepts
exactly the hostnames whose cleaned form is a catalog domain or a
dot-separated suffix extension of one.  The hostname `evilfacebook.net` is
neither (it is not any catalog domain, and its `facebook.net` tail is not
preceded by a dot), yet the code classifies it as a known tracker through the
plain, not dot-anchored `endsWith` scan of `TRACKING_DOMAIN_SUFFIXES`. -/
theorem nixxer_C3_counterexample :
    isKnownTrackingDomain "evilfacebook.net" = true ∧
    exactOrDotSuffixMatch "evilfacebook.net" = false := by decide

/-- Claim C3 (amended): `isKnownTrackingDomain h` holds iff the cleaned `h`
is exactly a member of `KNOWN_TRACKING_DOMAINS`, or ends with a member of
`TRACKING_DOMAIN_SUFFIXES` (plain suffix, dot not required), or ends with
`"." ++ d` for a member `d` of `KNOWN_TRACKING_DOMAINS`. -/
theorem nixxer_C3 (h : String) :
    isKnownTrackingDomain h = true ↔
      (cleanHostname h ∈ KNOWN_TRACKING_DOMAINS ∨
       (∃ s ∈ TRACKING_DOMAIN_SUFFIXES, strEndsWith (cleanHostname h) s = true) ∨
       (∃ d ∈ KNOWN_TRACKING_DOMAINS, strEndsWith (cleanHostname h) ("." ++ d) = true)) := by
  have hstep : isKnownTrackingDomain h =
      (List.contains KNOWN_TRACKING_DOMAINS (cleanHostname h) ||
       List.any TRACKING_DOMAIN_SUFFIXES (fun s => strEndsWith (cleanHostname h) s) ||
       List.any KNOWN_TRACKING_DOMAINS (fun d => strEndsWith (cleanHostname h) ("." ++ d))) := by
    simp only [isKnownTrackingDomain]
    exact ifChain3 _ _ _
  rw [hstep]
  simp only [Bool.or_eq_true, List.any_eq_true, List.contains_eq_any_beq, beq_iff_eq]
  rw [or_assoc]
  apply or_congr
  · exact ⟨fun ⟨x, hx, hxe⟩ => hxe ▸ hx, fun hm => ⟨_, hm, rfl⟩⟩
  · exact Iff.rfl

/-- Claim C4: `determineBlockingTarget` coincides with the specification's
five-step Resolver algorithm (`resolveSpec`) on every input. -/
theorem nixxer_C4 (domain method details : String) (s : Settings) :
    determineBlockingTarget domain method details s =
      resolveSpec domain method details s := by
  cases hp : parseUrlHostname details <;>
    cases hm : method == "request" <;>
      simp [determineBlockingTarget, resolveSpec, isSelfHostedGA, hp, hm]

/-- Claim C5: when capacity eviction runs (autoCleanup on) on a registry with
distinct keys whose entry count exceeds `maxHostsEntries`, the survivors
number exactly `maxHostsEntries`, and every evicted entry has a `lastSeen` no
larger than that of every surviving entry (the oldest excess entries are
deleted). -/
theorem nixxer_C5 (settings : Settings) (reg : Registry)
    (hac : settings.autoCleanup = true)
    (hnodup : (regKeys reg).Nodup)
    (hmax : 0 ≤ settings.maxHostsEntries)
    (hover : settings.maxHostsEntries < (reg.length : Int)) :
    (manageBlocklist settings reg).length = settings.maxHostsEntries.toNat ∧
    ∀ e ∈ reg, e ∉ manageBlocklist settings reg →
      ∀ e₂ ∈ manageBlocklist settings reg, e.2.lastSeen ≤ e₂.2.lastSeen := by
  have htn : settings.maxHostsEntries.toNat < reg.length := (Int.toNat_lt hmax).mpr hover
  have hMB : manageBlocklist settings reg =
      reg.filter (fun e => !(List.contains (evictedKeys settings reg) e.1)) := by
    unfold manageBlocklist evictedKeys
    rw [hac]
    rw [if_neg (by decide), if_pos hover]
  have hperm : (List.insertionSort lastSeenLe reg).Perm reg := List.perm_insertionSort _ _
  have hpw : List.Pairwise lastSeenLe (List.insertionSort lastSeenLe reg) :=
    List.sorted_insertionSort lastSeenLe reg
  have hkeysNodup : ((List.insertionSort lastSeenLe reg).map Prod.fst).Nodup :=
    ((hperm.map Prod.fst).nodup_iff).mpr hnodup
  have hsplit : (List.insertionSort lastSeenLe reg).take
        (reg.length - settings.maxHostsEntries.toNat) ++
      (List.insertionSort lastSeenLe reg).drop
        (reg.length - settings.maxHostsEntries.toNat) =
      List.insertionSort lastSeenLe reg :=
    List.take_append_drop _ _
  have hmapsplit : (List.insertionSort lastSeenLe reg).map Prod.fst =
      ((List.insertionSort lastSeenLe reg).take
        (reg.length - settings.maxHostsEntries.toNat)).map Prod.fst ++
      ((List.insertionSort lastSeenLe reg).drop
        (reg.length - settings.maxHostsEntries.toNat)).map Prod.fst := by
    rw [← List.map_append, hsplit]
  have hdisj : (((List.insertionSort lastSeenLe reg).take
        (reg.length - settings.maxHostsEntries.toNat)).map Prod.fst).Disjoint
      (((List.insertionSort lastSeenLe reg).drop
        (reg.length - settings.maxHostsEntries.toNat)).map Prod.fst) := by
    rw [hmapsplit] at hkeysNodup
    exact (List.nodup_append.mp hkeysNodup).2.2
  have hp_take : ∀ e ∈ (List.insertionSort lastSeenLe reg).take
      (reg.length - settings.maxHostsEntries.toNat),
      (!(List.contains (evictedKeys settings reg) e.1)) = false := by
    intro e he
    have hmem : e.1 ∈ evictedKeys settings reg := by
      unfold evictedKeys
      exact List.mem_map.mpr ⟨e, he, rfl⟩
    rw [containsOfKeyMem hmem]
    rfl
  have hp_drop : ∀ e ∈ (List.insertionSort lastSeenLe reg).drop
      (reg.length - settings.maxHostsEntries.toNat),
      (!(List.contains (evictedKeys settings reg) e.1)) = true := by
    intro e he
    cases hc : List.contains (evictedKeys settings reg) e.1 with
    | false => rfl
    | true =>
      have hmemT : e.1 ∈ ((List.insertionSort lastSeenLe reg).take
          (reg.length - settings.maxHostsEntries.toNat)).map Prod.fst := by
        have hx := keyMemOfContains hc
        unfold evictedKeys at hx
        exact hx
      have hmemD : e.1 ∈ ((List.insertionSort lastSeenLe reg).drop
          (reg.length - settings.maxHostsEntries.toNat)).map Prod.fst :=
        List.mem_map.mpr ⟨e, he, rfl⟩
      exact (hdisj hmemT hmemD).elim
  have hft : ((List.insertionSort lastSeenLe reg).take
      (reg.length - settings.maxHostsEntries.toNat)).filter
      (fun e => !(List.contains (evictedKeys settings reg) e.1)) = [] :=
    List.filter_eq_nil_iff.mpr (fun a ha => by
      rw [hp_take a ha]; exact Bool.false_ne_true)
  have hfd : ((List.insertionSort lastSeenLe reg).drop
      (reg.length - settings.maxHostsEntries.toNat)).filter
      (fun e => !(List.contains (evictedKeys settings reg) e.1)) =
      (List.insertionSort lastSeenLe reg).drop
        (reg.length - settings.maxHostsEntries.toNat) :=
    List.filter_eq_self.mpr hp_drop
  have hsf : (List.insertionSort lastSeenLe reg).filter
      (fun e => !(List.contains (evictedKeys settings reg) e.1)) =
      (List.insertionSort lastSeenLe reg).drop
        (reg.length - settings.maxHostsEntries.toNat) := by
    conv_lhs => rw [← hsplit]
    rw [List.filter_append, hft, hfd, List.nil_append]
  have hfiltPerm := hperm.filter (fun e => !(List.contains (evictedKeys settings reg) e.1))
  constructor
  · rw [hMB, ← hfiltPerm.length_eq, hsf, List.length_drop, hperm.length_eq,
      Nat.sub_sub_self (Nat.le_of_lt htn)]
  · intro e he hnot e₂ he₂
    rw [hMB] at hnot he₂
    obtain ⟨he₂reg, hpe₂⟩ := List.mem_filter.mp he₂
    have he₂sorted : e₂ ∈ List.insertionSort lastSeenLe reg := hperm.mem_iff.mpr he₂reg
    rw [← hsplit] at he₂sorted
    have he₂drop : e₂ ∈ (List.insertionSort lastSeenLe reg).drop
        (reg.length - settings.maxHostsEntries.toNat) := by
      rcases List.mem_append.mp he₂sorted with h | h
      · rw [hp_take e₂ h] at hpe₂
        exact absurd hpe₂ Bool.false_ne_true
      · exact h
    have hpe : (!(List.contains (evictedKeys settings reg) e.1)) = false := by
      cases hpe' : (!(List.contains (evictedKeys settings reg) e.1)) with
      | false => rfl
      | true => exact absurd (List.mem_filter.mpr ⟨he, hpe'⟩) hnot
    have hesorted : e ∈ List.insertionSort lastSeenLe reg := hperm.mem_iff.mpr he
    rw [← hsplit] at hesorted
    have hetake : e ∈ (List.insertionSort lastSeenLe reg).take
        (reg.length - settings.maxHostsEntries.toNat) := by
      rcases List.mem_append.mp hesorted with h | h
      · exact h
      · rw [hp_drop e h] at hpe
        exact absurd hpe.symm Bool.false_ne_true
    have hpw2 : List.Pairwise lastSeenLe
        ((List.insertionSort lastSeenLe reg).take
          (reg.length - settings.maxHostsEntries.toNat) ++
         (List.insertionSort lastSeenLe reg).drop
          (reg.length - settings.maxHostsEntries.toNat)) := by
      rw [hsplit]
      exact hpw
    exact (List.pairwise_append.mp hpw2).2.2 e hetake e₂ he₂drop

/-- Witness for C5 on the spec's tie-break scenario: entries with `lastSeen`
100, 200, 300 and `maxHostsEntries = 2` keep exactly the 200 and 300 entries
(only the entry with `lastSeen = 100` is evicted). -/
theorem nixxer_C5_witness :
    settingsMax2.autoCleanup = true ∧
    (regKeys regABC).Nodup ∧
    0 ≤ settingsMax2.maxHostsEntries ∧
    settingsMax2.maxHostsEntries < (regABC.length : Int) ∧
    (manageBlocklist settingsMax2 regABC).length = settingsMax2.maxHostsEntries.toNat ∧
    manageBlocklist settingsMax2 regABC =
      [("b.example", sampleRecord 200), ("c.example", sampleRecord 300)] :=
  ⟨by decide, by decide, by decide, by decide,
    (nixxer_C5 settingsMax2 regABC (by decide) (by decide) (by decide) (by decide)).1,
    by decide⟩

/-- Claim C6 counterexample: the claim asserts zombie repeat detections append
the new detail while `sampleDetails` holds fewer than 5 entries.  After a
second zombie detection of `example.com` with a fresh detail, the stored
record's frequency is 2 (the repeat was processed) but its details still hold
only the creation detail, although 1 < 5. -/
theorem nixxer_C6_counterexample :
    (regFind zombieReg2 "example.com_zombie").map DetectionRecord.details =
      some ["localStorage backup: _ga"] ∧
    (regFind zombieReg2 "example.com_zombie").map DetectionRecord.frequency = some 2 ∧
    (1 : Nat) < 5 := by decide

/-- Claim C6 (amended): `handleZombieCookieDetection` works on the distinct
`clean ++ "_zombie"` key; creation stores `isZombieCookie = true`,
`frequency = 1`, the singleton method list and the single detail; a repeat
updates `lastSeen`, increments `frequency` and adds the method if new, but
never appends further details. -/
theorem nixxer_C6 (reg : Registry) (domain method details clean : String) (now : Nat)
    (hdom : validateDomain domain = some clean) :
    (regFind reg (clean ++ "_zombie") = none →
      regFind (handleZombieCookieDetection reg domain method details now)
          (clean ++ "_zombie") =
        some { firstSeen := now, lastSeen := now, frequency := 1, gaTypes := [method],
               blocked := true, details := [details], hostDomain := none,
               isZombieCookie := true }) ∧
    (∀ r, regFind reg (clean ++ "_zombie") = some r →
      ∃ r₂, regFind (handleZombieCookieDetection reg domain method details now)
          (clean ++ "_zombie") = some r₂ ∧
        r₂.firstSeen = r.firstSeen ∧ r₂.lastSeen = now ∧ r₂.frequency = r.frequency + 1 ∧
        (List.contains r.gaTypes method = true → r₂.gaTypes = r.gaTypes) ∧
        (List.contains r.gaTypes method = false → r₂.gaTypes = r.gaTypes ++ [method]) ∧
        r₂.details = r.details ∧ r₂.isZombieCookie = r.isZombieCookie) := by
  constructor
  · intro hnone
    simp only [handleZombieCookieDetection, hdom, hnone]
    exact regFind_regSet_self ..
  · intro r hr
    simp only [handleZombieCookieDetection, hdom, hr]
    refine ⟨_, regFind_regSet_self .., rfl, rfl, rfl, ?_, ?_, rfl, rfl⟩
    · intro hc
      have hm' : method ∈ r.gaTypes := by simpa using hc
      simp [hm']
    · intro hc
      have hm' : method ∉ r.gaTypes := by simpa using hc
      simp [hm']

/-- Witness for C6: creating the zombie record for `example.com`. -/
theorem nixxer_C6_witness :
    validateDomain "example.com" = some "example.com" ∧
    regFind [] "example.com_zombie" = none ∧
    regFind zombieReg "example.com_zombie" =
      some { firstSeen := 1000, lastSeen := 1000, frequency := 1,
             gaTypes := ["zombie-storage"], blocked := true,
             details := ["localStorage backup: _ga"], hostDomain := none,
             isZombieCookie := true } :=
  ⟨by decide, by decide,
    (nixxer_C6 [] "example.com" "zombie-storage" "localStorage backup: _ga"
      "example.com" 1000 (by decide)).1 (by decide)⟩

/-- Claim C7 counterexample: the claim says any settings update with
`autoExportThreshold` not below `maxHostsEntries`, or a `detectionSensitivity`
outside {low, medium, high}, is rejected with no part adopted.  Both updates
below are accepted without error and fully merged into the live settings. -/
theorem nixxer_C7_counterexample :
    handleSettingsUpdated defaultSettings updThresholdAboveMax =
      ({ defaultSettings with maxHostsEntries := 100, autoExportThreshold := 5000 }, none) ∧
    handleSettingsUpdated defaultSettings updBogusSensitivity =
      ({ defaultSettings with detectionSensitivity := "invalid-sensitivity" }, none) := by
  decide

/-- Claim C7 (amended): re-validation checks only that a present
`maxHostsEntries` is in [50, 10000] and a present `autoExportThreshold` is at
least 10 (`detectionSensitivity` and the relation to `maxHostsEntries` are
not checked); a failing update is rejected with a descriptive error and the
core keeps its previous settings unchanged. -/
theorem nixxer_C7 (current : Settings) (upd : SettingsUpdate) :
    (validateSettings upd = Except.ok upd ↔
      ((∀ m, upd.maxHostsEntries = some m → 50 ≤ m ∧ m ≤ 10000) ∧
       (∀ t, upd.autoExportThreshold = some t → 10 ≤ t))) ∧
    (∀ e, validateSettings upd = Except.error e →
      handleSettingsUpdated current upd = (current, some ("Invalid settings: " ++ e))) := by
  constructor
  · rcases hm : upd.maxHostsEntries with _ | m <;>
      rcases ht : upd.autoExportThreshold with _ | t <;>
        simp only [validateSettings, hm, ht] <;>
          split_ifs with h1 h2 <;> simp_all <;> omega
  · intro e he
    simp [handleSettingsUpdated, he]

/-- Witness for C7: an update with threshold 5 is rejected with the thrown
message and the settings stay at their previous values. -/
theorem nixxer_C7_witness :
    validateSettings updLowThreshold =
      Except.error "autoExportThreshold must be at least 10" ∧
    handleSettingsUpdated defaultSettings updLowThreshold =
      (defaultSettings, some "Invalid settings: autoExportThreshold must be at least 10") :=
  ⟨by rfl,
    (nixxer_C7 defaultSettings updLowThreshold).2
      "autoExportThreshold must be at least 10" (by rfl)⟩

/-- Claim C8: `updateDetectedDomain` creates an absent key with
`frequency = 1`, singleton method list, single detail and
`firstSeen = lastSeen = timestamp`; on a present key it sets `lastSeen`,
increments `frequency`, adds the method only if new, appends the detail only
while fewer than 5 details are stored, and never changes `firstSeen`. -/
theorem nixxer_C8 (reg : Registry) (key method details host : String) (ts : Nat) :
    (regFind reg key = none →
      regFind (updateDetectedDomain reg key method details host ts) key =
        some { firstSeen := ts, lastSeen := ts, frequency := 1, gaTypes := [method],
               blocked := true, details := [details], hostDomain := some host,
               isZombieCookie := false }) ∧
    (∀ r, regFind reg key = some r →
      ∃ r₂, regFind (updateDetectedDomain reg key method details host ts) key = some r₂ ∧
        r₂.firstSeen = r.firstSeen ∧ r₂.lastSeen = ts ∧ r₂.frequency = r.frequency + 1 ∧
        (List.contains r.gaTypes method = true → r₂.gaTypes = r.gaTypes) ∧
        (List.contains r.gaTypes method = false → r₂.gaTypes = r.gaTypes ++ [method]) ∧
        (r.details.length < 5 → r₂.details = r.details ++ [details]) ∧
        (¬ r.details.length < 5 → r₂.details = r.details)) := by
  constructor
  · intro hnone
    simp only [updateDetectedDomain, hnone]
    exact regFind_regSet_self ..
  · intro r hr
    simp only [updateDetectedDomain, hr]
    refine ⟨_, regFind_regSet_self .., rfl, rfl, rfl, ?_, ?_, ?_, ?_⟩
    · intro hc
      have hm' : method ∈ r.gaTypes := by simpa using hc
      simp [hm']
    · intro hc
      have hm' : method ∉ r.gaTypes := by simpa using hc
      simp [hm']
    · intro hlen; simp [if_pos hlen]
    · intro hlen; simp [if_neg hlen]

/-- Witness for C8: first detection of `t.example` creates the expected
record. -/
theorem nixxer_C8_witness :
    regFind [] "t.example" = none ∧
    regFind (updateDetectedDomain [] "t.example" "request" "https://t.example/gtm.js"
        "host.example" 42) "t.example" =
      some { firstSeen := 42, lastSeen := 42, frequency := 1, gaTypes := ["request"],
             blocked := true, details := ["https://t.example/gtm.js"],
             hostDomain := some "host.example", isZombieCookie := false } :=
  ⟨by decide,
    (nixxer_C8 [] "t.example" "request" "https://t.example/gtm.js" "host.example" 42).1
      (by decide)⟩

/-- Claim C9: a cookie is classified as tracking exactly when its name
matches one of the six families' name patterns; the value never influences
the outcome, and a non-string name yields `false`. -/
theorem nixxer_C9 (name value : Option String) :
    isTrackingCookie name value =
      (match name with
       | none => false
       | some n => matchesAnyCookieFamily n) := by
  cases name with
  | none => rfl
  | some n =>
    simp only [isTrackingCookie, matchesAnyCookieFamily]
    cases hC : (gaCookieName n || gtmCookieName n || facebookCookieName n ||
        adobeCookieName n || sessionRecordingCookieName n || tiktokCookieName n) with
    | false => simp [hC]
    | true => cases value <;> simp [hC]

/-- Claim C10: a request for a URL already seen less than 1000 ms earlier is
answered with the empty decision (not cancelled) and the whole core state —
registry, counters, recent-request map — is left untouched, whatever the URL
is. -/
theorem nixxer_C10 (st : CoreState) (url : String) (now lastSeen : Nat)
    (hmem : recentLookup st.recentRequests url = some lastSeen)
    (hwin : now - lastSeen < 1000) :
    onBeforeRequest st url now = (st, false) := by
  cases hE : st.isEnabled with
  | false => simp [onBeforeRequest, hE]
  | true => simp [onBeforeRequest, hE, hmem, hwin]

/-- Witness for C10: the duplicate of a known-tracker URL observed 400 ms
after the first sighting is let through with the state unchanged. -/
theorem nixxer_C10_witness :
    recentLookup c10State.recentRequests gaCollectUrl = some 500 ∧
    900 - 500 < 1000 ∧
    parseUrlHostname gaCollectUrl = some "www.google-analytics.com" ∧
    isKnownTrackingDomain "www.google-analytics.com" = true ∧
    onBeforeRequest c10State gaCollectUrl 900 = (c10State, false) :=
  ⟨by decide, by decide, by decide, by decide,
    nixxer_C10 c10State gaCollectUrl 900 500 (by decide) (by decide)⟩

end Nixxer
